import Mathlib

/-!
Verification of the SolarView telemetry simulator and generation services.

The simulator is the body of refreshData in src/App.tsx: it builds a new
InverterData snapshot from the previous one by bounded random perturbation and
then recomputes the derived energy-balance fields.  Numbers are modelled as
exact rationals; each call to Math.random() becomes an explicit parameter
r with 0 <= r < 1, and the wall-clock timestamp becomes an explicit String
parameter.  The text-generation services in src/services/geminiService.ts are
modelled with the external endpoint call replaced by an explicit outcome
parameter (an exception or an optional response text).
-/

namespace SolarView

/-- Grid link state, from the gridStatus union type in src/unnamed/part_000
(types.ts): 'Connected' | 'Disconnected' | 'Error'. -/
inductive GridStatus where
  | connected
  | disconnected
  | error
deriving DecidableEq, Repr

/-- The InverterData interface from src/unnamed/part_000 (types.ts).
Numeric fields are modelled as exact rationals; timestamp is the string
produced by toLocaleTimeString. -/
structure InverterData where
  pvWatts : ℚ
  batteryPercent : ℚ
  batteryVoltage : ℚ
  batteryWatts : ℚ
  loadWatts : ℚ
  gridWatts : ℚ
  gridStatus : GridStatus
  timestamp : String
deriving DecidableEq, Repr

/-- The snapshot-advance step: the newData computation of refreshData in
src/App.tsx (lines 40-52).  r1 and r2 are the two Math.random() draws
(each in [0,1)), now is the generated timestamp string.  The source first
builds newData by spreading the previous snapshot and overriding pvWatts,
loadWatts, batteryPercent and timestamp, then overwrites
newData.batteryWatts with newData.pvWatts - newData.loadWatts (surplus)
and newData.gridWatts with 0. -/
def refreshData (data : InverterData) (r1 r2 : ℚ) (now : String) : InverterData :=
  let pv := max 0 (data.pvWatts + (r1 * 400 - 200))
  let load := max 500 (data.loadWatts + (r2 * 200 - 100))
  let bp := min 100 (max 0 (data.batteryPercent +
    (if data.batteryWatts > 0 then (0.2 : ℚ) else (-0.1 : ℚ))))
  let surplus := pv - load
  { data with
    pvWatts := pv
    loadWatts := load
    batteryPercent := bp
    batteryWatts := surplus
    gridWatts := 0
    timestamp := now }

/-- The older variant of the same step found in the App copy inside
src/unnamed/part_000 (lines 63-75): perturbation amplitudes 100 W and 50 W
and a symmetric 0.1 battery step.  Kept for comparison with the current
src/App.tsx version; the claims are settled against refreshData above. -/
def refreshDataPart000 (data : InverterData) (r1 r2 : ℚ) (now : String) : InverterData :=
  let pv := max 0 (data.pvWatts + (r1 * 200 - 100))
  let load := max 500 (data.loadWatts + (r2 * 100 - 50))
  let bp := min 100 (max 0 (data.batteryPercent +
    (if data.batteryWatts > 0 then (0.1 : ℚ) else (-0.1 : ℚ))))
  let surplus := pv - load
  { data with
    pvWatts := pv
    loadWatts := load
    batteryPercent := bp
    batteryWatts := surplus
    gridWatts := 0
    timestamp := now }

/-- INITIAL_DATA from src/App.tsx, with the dynamic timestamp fixed to a
concrete string. -/
def INITIAL_DATA : InverterData :=
  { pvWatts := 8250
    batteryPercent := 92
    batteryVoltage := 54.2
    batteryWatts := 3500
    loadWatts := 4750
    gridWatts := 0
    gridStatus := GridStatus.connected
    timestamp := "t0" }

/-- The scenario snapshot of spec section 8 (also INITIAL_DATA of the App
copy in src/unnamed/part_000): pvWatts 4250, loadWatts 2850, batteryPercent
88, batteryWatts 1200, gridWatts 0, grid connected.  The scenario leaves
batteryVoltage and timestamp unspecified; the values 53.4 and a fixed
string are taken from that INITIAL_DATA. -/
def scenarioSnapshot : InverterData :=
  { pvWatts := 4250
    batteryPercent := 88
    batteryVoltage := 53.4
    batteryWatts := 1200
    loadWatts := 2850
    gridWatts := 0
    gridStatus := GridStatus.connected
    timestamp := "t0" }

/-- The UserCredentials interface from src/unnamed/part_000 (types.ts);
all fields except username are optional. -/
structure UserCredentials where
  username : String
  password : Option String
  stationId : Option String
  inverterSn : Option String
  displaySn : Option String
  sensecraftApiKey : Option String
  sensecraftDeviceId : Option String
deriving DecidableEq, Repr

/-- MOCK_CREDENTIALS from src/App.tsx. -/
def MOCK_CREDENTIALS : UserCredentials :=
  { username := "AdamByrne"
    password := some "Solar123"
    stationId := none
    inverterSn := none
    displaySn := some "100073581253500339"
    sensecraftApiKey := some ""
    sensecraftDeviceId := some "20221942" }

/-- The mode selector of generatePythonScript: 'direct' | 'relay'. -/
inductive ScriptMode where
  | direct
  | relay
deriving DecidableEq, Repr

/-- A fault raised by the external generative-AI endpoint (the value caught
by the catch blocks in src/services/geminiService.ts). -/
inductive GenError where
  | mk (message : String)
deriving DecidableEq, Repr

/-- Outcome of one call to ai.models.generateContent: either a raised error
or a response whose text field may be absent (none) or any string; an
absent or empty text is falsy in the source's expression
(response.text or fallback). -/
abbrev GenOutcome := Except GenError (Option String)

/-- The backtick character, written by code point. -/
def backquote : Char := Char.ofNat 96

/-- One pass of JavaScript String.replace with a global pattern and empty
replacement: scan left to right; at each position where the pattern p :: ps
occurs, drop its first character and enter a skip state that discards the
remaining ps.length matched characters, then resume scanning after the
match.  The skip counter makes the recursion structural in the list. -/
def stripRunsAux (p : Char) (ps : List Char) : Nat → List Char → List Char
  | _, [] => []
  | skip + 1, _ :: cs => stripRunsAux p ps skip cs
  | 0, c :: cs =>
    if c = p ∧ List.take ps.length cs = ps then
      stripRunsAux p ps ps.length cs
    else
      c :: stripRunsAux p ps 0 cs

/-- Remove every (leftmost, non-overlapping) occurrence of the pattern
p :: ps from the character list, as the source's replace(pattern, "") does. -/
def stripRuns (p : Char) (ps : List Char) (l : List Char) : List Char :=
  stripRunsAux p ps 0 l

/-- The character class stripped by JavaScript String.prototype.trim:
ECMAScript WhiteSpace (tab, vertical tab, form feed, space, no-break
space, zero-width no-break space and the Unicode space separators) plus
the LineTerminator code points. -/
def jsWhitespace (c : Char) : Bool :=
  decide (c.toNat = 9 ∨ c.toNat = 10 ∨ c.toNat = 11 ∨ c.toNat = 12
    ∨ c.toNat = 13 ∨ c.toNat = 32 ∨ c.toNat = 160 ∨ c.toNat = 5760
    ∨ (8192 ≤ c.toNat ∧ c.toNat ≤ 8202)
    ∨ c.toNat = 8232 ∨ c.toNat = 8233 ∨ c.toNat = 8239 ∨ c.toNat = 8287
    ∨ c.toNat = 12288 ∨ c.toNat = 65279)

/-- JavaScript String.prototype.trim on a character list: drop the
jsWhitespace characters from both ends. -/
def jsTrim (l : List Char) : List Char :=
  ((l.dropWhile jsWhitespace).reverse.dropWhile jsWhitespace).reverse

/-- The post-processing of generatePythonScript on the response text
(src/services/geminiService.ts lines 110-112): remove every occurrence of
the python code-fence opener, then every remaining triple backtick, then
trim. -/
def postprocessPython (t : String) : String :=
  String.mk (jsTrim (stripRuns backquote [backquote, backquote]
    (stripRuns backquote (backquote :: backquote :: String.data "python") t.data)))

/-- The post-processing of generateGithubWorkflow on the response text
(src/services/geminiService.ts lines 150-152): same with the yaml fence. -/
def postprocessYaml (t : String) : String :=
  String.mk (jsTrim (stripRuns backquote [backquote, backquote]
    (stripRuns backquote (backquote :: backquote :: String.data "yaml") t.data)))

/-- generateSystemInsight from src/services/geminiService.ts, with the
endpoint call abstracted into the outcome parameter.  An empty apiKey is
the falsy missing-key case; a raised error is caught and mapped to the
offline fallback; an absent or empty response text falls back to
"System Operational.". -/
def generateSystemInsight (apiKey : String) (data : InverterData)
    (outcome : GenOutcome) : String :=
  if apiKey = "" then "API Key missing. Cannot generate insights."
  else
    match outcome with
    | Except.error _ => "Status: Operational (AI Offline)"
    | Except.ok t =>
      let text := t.getD ""
      if text = "" then "System Operational." else text

/-- generatePythonScript from src/services/geminiService.ts: guards on the
missing key, maps a raised error to a static fallback, and otherwise
post-processes the response text (credential fields, mode and useEnvVars
only shape the prompt sent to the endpoint, not the returned text). -/
def generatePythonScript (apiKey : String) (creds : UserCredentials)
    (mode : ScriptMode) (useEnvVars : Bool) (outcome : GenOutcome) : String :=
  if apiKey = "" then "# Error: API Key missing."
  else
    match outcome with
    | Except.error _ => "# Error generating script. Please check API Key and try again."
    | Except.ok t => postprocessPython (t.getD "")

/-- generateGithubWorkflow from src/services/geminiService.ts. -/
def generateGithubWorkflow (apiKey : String) (outcome : GenOutcome) : String :=
  if apiKey = "" then "# Error: API Key missing."
  else
    match outcome with
    | Except.error _ => "# Error generating workflow."
    | Except.ok t => postprocessYaml (t.getD "")

theorem refreshData_pvWatts (d : InverterData) (r1 r2 : ℚ) (now : String) :
    (refreshData d r1 r2 now).pvWatts = max 0 (d.pvWatts + (r1 * 400 - 200)) := rfl

theorem refreshData_loadWatts (d : InverterData) (r1 r2 : ℚ) (now : String) :
    (refreshData d r1 r2 now).loadWatts = max 500 (d.loadWatts + (r2 * 200 - 100)) := rfl

theorem refreshData_batteryPercent (d : InverterData) (r1 r2 : ℚ) (now : String) :
    (refreshData d r1 r2 now).batteryPercent
      = min 100 (max 0 (d.batteryPercent +
          (if d.batteryWatts > 0 then (0.2 : ℚ) else (-0.1 : ℚ)))) := rfl

/-- C1: in the snapshot produced by refreshData, batteryWatts equals the new
pvWatts minus the new loadWatts, and gridWatts equals 0. -/
theorem advance_energy_balance (s : InverterData) (r1 r2 : ℚ) (now : String) :
    (refreshData s r1 r2 now).batteryWatts
        = (refreshData s r1 r2 now).pvWatts - (refreshData s r1 r2 now).loadWatts
      ∧ (refreshData s r1 r2 now).gridWatts = 0 :=
  ⟨rfl, rfl⟩

/-- C4: for every input snapshot satisfying the spec-section-3 invariants
(pvWatts nonnegative, loadWatts at least 500, batteryPercent in [0,100]),
the snapshot produced by refreshData again satisfies pvWatts nonnegative,
loadWatts at least 500 and batteryPercent in [0,100]. -/
theorem advance_preserves_invariants (s : InverterData) (r1 r2 : ℚ) (now : String)
    (hpv : 0 ≤ s.pvWatts) (hload : 500 ≤ s.loadWatts)
    (hbp0 : 0 ≤ s.batteryPercent) (hbp1 : s.batteryPercent ≤ 100) :
    0 ≤ (refreshData s r1 r2 now).pvWatts
      ∧ 500 ≤ (refreshData s r1 r2 now).loadWatts
      ∧ 0 ≤ (refreshData s r1 r2 now).batteryPercent
      ∧ (refreshData s r1 r2 now).batteryPercent ≤ 100 := by
  refine ⟨le_max_left _ _, le_max_left _ _, ?_, ?_⟩
  · rw [refreshData_batteryPercent]
    exact le_min (by norm_num) (le_max_left _ _)
  · rw [refreshData_batteryPercent]
    exact min_le_left _ _

/-- Witness for C4 at the INITIAL_DATA snapshot with both draws 1/2. -/
theorem advance_preserves_invariants_witness :
    (0 ≤ INITIAL_DATA.pvWatts ∧ 500 ≤ INITIAL_DATA.loadWatts
        ∧ 0 ≤ INITIAL_DATA.batteryPercent ∧ INITIAL_DATA.batteryPercent ≤ 100)
      ∧ (0 ≤ (refreshData INITIAL_DATA (1/2) (1/2) "t1").pvWatts
          ∧ 500 ≤ (refreshData INITIAL_DATA (1/2) (1/2) "t1").loadWatts
          ∧ 0 ≤ (refreshData INITIAL_DATA (1/2) (1/2) "t1").batteryPercent
          ∧ (refreshData INITIAL_DATA (1/2) (1/2) "t1").batteryPercent ≤ 100) :=
  ⟨⟨by norm_num [INITIAL_DATA], by norm_num [INITIAL_DATA],
    by norm_num [INITIAL_DATA], by norm_num [INITIAL_DATA]⟩,
   advance_preserves_invariants INITIAL_DATA (1/2) (1/2) "t1"
     (by norm_num [INITIAL_DATA]) (by norm_num [INITIAL_DATA])
     (by norm_num [INITIAL_DATA]) (by norm_num [INITIAL_DATA])⟩

/-- C5: for every valid input snapshot, if batteryWatts is positive the new
batteryPercent is at least the old one, and if batteryWatts is nonpositive
the new batteryPercent is at most the old one, for any random draws. -/
theorem advance_charge_direction (s : InverterData) (r1 r2 : ℚ) (now : String)
    (hpv : 0 ≤ s.pvWatts) (hload : 500 ≤ s.loadWatts)
    (hbp0 : 0 ≤ s.batteryPercent) (hbp1 : s.batteryPercent ≤ 100) :
    (s.batteryWatts > 0 →
        s.batteryPercent ≤ (refreshData s r1 r2 now).batteryPercent)
      ∧ (s.batteryWatts ≤ 0 →
        (refreshData s r1 r2 now).batteryPercent ≤ s.batteryPercent) := by
  constructor
  · intro hw
    rw [refreshData_batteryPercent, if_pos hw]
    exact le_min hbp1 (le_max_of_le_right (by linarith))
  · intro hw
    rw [refreshData_batteryPercent, if_neg (not_lt.mpr hw)]
    exact le_trans (min_le_right _ _) (max_le hbp0 (by linarith))

/-- Witness for C5 at the INITIAL_DATA snapshot (batteryWatts 3500 > 0). -/
theorem advance_charge_direction_witness :
    (0 ≤ INITIAL_DATA.pvWatts ∧ 500 ≤ INITIAL_DATA.loadWatts
        ∧ 0 ≤ INITIAL_DATA.batteryPercent ∧ INITIAL_DATA.batteryPercent ≤ 100)
      ∧ ((INITIAL_DATA.batteryWatts > 0 →
            INITIAL_DATA.batteryPercent
              ≤ (refreshData INITIAL_DATA (1/2) (1/2) "t1").batteryPercent)
          ∧ (INITIAL_DATA.batteryWatts ≤ 0 →
            (refreshData INITIAL_DATA (1/2) (1/2) "t1").batteryPercent
              ≤ INITIAL_DATA.batteryPercent)) :=
  ⟨⟨by norm_num [INITIAL_DATA], by norm_num [INITIAL_DATA],
    by norm_num [INITIAL_DATA], by norm_num [INITIAL_DATA]⟩,
   advance_charge_direction INITIAL_DATA (1/2) (1/2) "t1"
     (by norm_num [INITIAL_DATA]) (by norm_num [INITIAL_DATA])
     (by norm_num [INITIAL_DATA]) (by norm_num [INITIAL_DATA])⟩

/-- C6: refreshData carries batteryVoltage and gridStatus over unchanged
from the input snapshot; by the field equations above together with this
one, the only fields it rewrites are pvWatts, loadWatts, batteryPercent,
batteryWatts, gridWatts and timestamp. -/
theorem advance_frame (s : InverterData) (r1 r2 : ℚ) (now : String) :
    (refreshData s r1 r2 now).batteryVoltage = s.batteryVoltage
      ∧ (refreshData s r1 r2 now).gridStatus = s.gridStatus :=
  ⟨rfl, rfl⟩

/-- C7: refreshData is deterministic in the input snapshot, the random
draws and the timestamp: two invocations whose snapshot, draws and clock
reading agree produce equal snapshots in every field. -/
theorem advance_deterministic (s s' : InverterData) (r1 r1' r2 r2' : ℚ)
    (now now' : String)
    (hs : s = s') (h1 : r1 = r1') (h2 : r2 = r2') (hn : now = now') :
    refreshData s r1 r2 now = refreshData s' r1' r2' now' := by
  subst hs; subst h1; subst h2; subst hn; rfl

/-- Witness for C7 at the INITIAL_DATA snapshot. -/
theorem advance_deterministic_witness :
    refreshData INITIAL_DATA (1/2) (1/3) "t1"
      = refreshData INITIAL_DATA (1/2) (1/3) "t1" :=
  advance_deterministic INITIAL_DATA INITIAL_DATA (1/2) (1/2) (1/3) (1/3)
    "t1" "t1" rfl rfl rfl rfl

/-- C10: with no hypothesis at all on the input snapshot, the snapshot
produced by refreshData satisfies pvWatts nonnegative, loadWatts at least
500 and batteryPercent in [0,100]: the clamps are unconditional and the
function is total. -/
theorem advance_clamps_unconditionally (s : InverterData) (r1 r2 : ℚ) (now : String) :
    0 ≤ (refreshData s r1 r2 now).pvWatts
      ∧ 500 ≤ (refreshData s r1 r2 now).loadWatts
      ∧ 0 ≤ (refreshData s r1 r2 now).batteryPercent
      ∧ (refreshData s r1 r2 now).batteryPercent ≤ 100 := by
  refine ⟨le_max_left _ _, le_max_left _ _, ?_, ?_⟩
  · rw [refreshData_batteryPercent]
    exact le_min (by norm_num) (le_max_left _ _)
  · rw [refreshData_batteryPercent]
    exact min_le_left _ _

/-- C2 counterexample: at the scenario snapshot with first draw 9/10, the
new pvWatts is 4410 = 4250 + 160, which is not of the form
max 0 (4250 + u) for any u in [-100, 100]: the pv perturbation of
refreshData in src/App.tsx has amplitude 200 W, not 100 W. -/
theorem advance_amplitude_counterexample :
    ¬ ∃ u : ℚ, -100 ≤ u ∧ u ≤ 100 ∧
      (refreshData scenarioSnapshot (9/10) (1/2) "t1").pvWatts
        = max 0 (scenarioSnapshot.pvWatts + u) := by
  rintro ⟨u, hu1, hu2, hu⟩
  rw [refreshData_pvWatts] at hu
  simp only [scenarioSnapshot] at hu
  rw [max_eq_right (by norm_num), max_eq_right (by linarith)] at hu
  linarith

/-- C2 amended: refreshData perturbs pvWatts by a uniform draw in
[-200, 200) watts and loadWatts by a uniform draw in [-100, 100) watts:
for draws r1, r2 in [0,1), the new pvWatts is max 0 (pvWatts + u) with
u = r1 * 400 - 200 in [-200, 200), and the new loadWatts is
max 500 (loadWatts + v) with v = r2 * 200 - 100 in [-100, 100). -/
theorem advance_perturbation_form (s : InverterData) (r1 r2 : ℚ) (now : String)
    (h1 : 0 ≤ r1) (h2 : r1 < 1) (h3 : 0 ≤ r2) (h4 : r2 < 1) :
    ∃ u v : ℚ, -200 ≤ u ∧ u < 200 ∧ -100 ≤ v ∧ v < 100
      ∧ (refreshData s r1 r2 now).pvWatts = max 0 (s.pvWatts + u)
      ∧ (refreshData s r1 r2 now).loadWatts = max 500 (s.loadWatts + v) :=
  ⟨r1 * 400 - 200, r2 * 200 - 100,
    by linarith, by linarith, by linarith, by linarith, rfl, rfl⟩

/-- Witness for the amended C2 at the scenario snapshot with both draws 1/2. -/
theorem advance_perturbation_form_witness :
    ∃ u v : ℚ, -200 ≤ u ∧ u < 200 ∧ -100 ≤ v ∧ v < 100
      ∧ (refreshData scenarioSnapshot (1/2) (1/2) "t1").pvWatts
          = max 0 (scenarioSnapshot.pvWatts + u)
      ∧ (refreshData scenarioSnapshot (1/2) (1/2) "t1").loadWatts
          = max 500 (scenarioSnapshot.loadWatts + v) :=
  advance_perturbation_form scenarioSnapshot (1/2) (1/2) "t1"
    (by norm_num) (by norm_num) (by norm_num) (by norm_num)

/-- C3 counterexample: on the spec scenario snapshot (batteryPercent 88,
batteryWatts 1200 > 0) refreshData yields batteryPercent 88.2, not 88.1:
the charging step in src/App.tsx is +0.2, not +0.1. -/
theorem advance_battery_step_counterexample :
    (refreshData scenarioSnapshot (1/2) (1/2) "t1").batteryPercent = 88.2
      ∧ (refreshData scenarioSnapshot (1/2) (1/2) "t1").batteryPercent ≠ 88.1 := by
  have h : (refreshData scenarioSnapshot (1/2) (1/2) "t1").batteryPercent = 88.2 := by
    rw [refreshData_batteryPercent]
    simp only [scenarioSnapshot]
    rw [if_pos (by norm_num)]
    rw [max_eq_right (by norm_num), min_eq_right (by norm_num)]
    norm_num
  exact ⟨h, by rw [h]; norm_num⟩

/-- C3 amended: refreshData updates batteryPercent to
clamp(batteryPercent + (0.2 if batteryWatts > 0 else -0.1), 0, 100) — an
asymmetric fixed step, +0.2 when the previous battery flow was positive
and -0.1 otherwise; on the spec scenario snapshot (batteryPercent 88,
batteryWatts 1200) the result is exactly 88.2. -/
theorem advance_battery_step (s : InverterData) (r1 r2 : ℚ) (now : String) :
    (refreshData s r1 r2 now).batteryPercent
        = min 100 (max 0 (s.batteryPercent +
            (if s.batteryWatts > 0 then (0.2 : ℚ) else (-0.1 : ℚ))))
      ∧ (refreshData scenarioSnapshot r1 r2 now).batteryPercent = 88.2 := by
  refine ⟨rfl, ?_⟩
  rw [refreshData_batteryPercent]
  simp only [scenarioSnapshot]
  rw [if_pos (by norm_num)]
  rw [max_eq_right (by norm_num), min_eq_right (by norm_num)]
  norm_num

theorem stripRunsAux_of_not_mem (p : Char) (ps : List Char) :
    ∀ l : List Char, p ∉ l → stripRunsAux p ps 0 l = l := by
  intro l
  induction l with
  | nil => intro _; rfl
  | cons c cs ih =>
    intro hl
    have hc : ¬ (c = p ∧ List.take ps.length cs = ps) := by
      rintro ⟨rfl, -⟩
      exact hl (List.mem_cons_self _ _)
    have hcs : p ∉ cs := fun h => hl (List.mem_cons_of_mem _ h)
    simp only [stripRunsAux, if_neg hc, ih hcs]

theorem stripRuns_of_not_mem (p : Char) (ps : List Char) (l : List Char)
    (h : p ∉ l) : stripRuns p ps l = l :=
  stripRunsAux_of_not_mem p ps l h

theorem stripRunsAux_skip (p : Char) (ps : List Char) :
    ∀ x b : List Char, stripRunsAux p ps x.length (x ++ b) = stripRunsAux p ps 0 b := by
  intro x
  induction x with
  | nil => intro b; rfl
  | cons y ys ih =>
    intro b
    simp only [List.cons_append, List.length_cons, stripRunsAux]
    exact ih b

theorem stripRunsAux_append (p : Char) (ps : List Char) (b : List Char) :
    ∀ a : List Char, p ∉ a →
      stripRunsAux p ps 0 (a ++ (p :: ps) ++ b) = a ++ stripRunsAux p ps 0 b := by
  intro a
  induction a with
  | nil =>
    intro _
    have hcond : List.take ps.length (ps ++ b) = ps := by
      rw [List.take_left]
    simp only [List.nil_append, List.cons_append, stripRunsAux, List.append_eq,
      true_and, if_pos hcond]
    exact stripRunsAux_skip p ps ps b
  | cons x xs ih =>
    intro hx
    have hxp : ¬ (x = p ∧
        List.take ps.length (xs ++ (p :: ps) ++ b) = ps) := by
      rintro ⟨rfl, -⟩
      exact hx (List.mem_cons_self _ _)
    have hxs : p ∉ xs := fun h => hx (List.mem_cons_of_mem _ h)
    simp only [List.cons_append, stripRunsAux, List.append_eq, if_neg hxp, ih hxs]

theorem stripRunsAux_skips_bare_fence (w : List Char) :
    ∀ c b : List Char, backquote ∉ c → backquote ∉ b →
      List.take w.length b ≠ w →
      stripRunsAux backquote (backquote :: backquote :: w) 0
          (c ++ backquote :: backquote :: backquote :: b)
        = c ++ backquote :: backquote :: backquote :: b := by
  intro c
  induction c with
  | nil =>
    intro b _ hb htb
    have h1 : List.take (backquote :: backquote :: w).length
        (backquote :: backquote :: b) ≠ backquote :: backquote :: w := by
      intro h
      simp only [List.length_cons, List.take_succ_cons] at h
      injection h with _ h
      injection h with _ h
      exact htb h
    have h2 : List.take (backquote :: backquote :: w).length
        (backquote :: b) ≠ backquote :: backquote :: w := by
      intro h
      simp only [List.length_cons, List.take_succ_cons] at h
      injection h with _ h
      have hmem : backquote ∈ List.take (w.length + 1) b := by
        rw [h]
        exact List.mem_cons_self _ _
      exact hb (List.take_subset _ _ hmem)
    have h3 : List.take (backquote :: backquote :: w).length b
        ≠ backquote :: backquote :: w := by
      intro h
      have hmem : backquote ∈ List.take (backquote :: backquote :: w).length b := by
        rw [h]
        exact List.mem_cons_self _ _
      exact hb (List.take_subset _ _ hmem)
    simp only [List.nil_append, stripRunsAux, true_and, if_neg h1, if_neg h2, if_neg h3,
      stripRunsAux_of_not_mem backquote _ b hb]
  | cons x xs ih =>
    intro b hc hb htb
    have hx : ¬ (x = backquote ∧
        List.take (backquote :: backquote :: w).length
          (xs ++ backquote :: backquote :: backquote :: b)
          = backquote :: backquote :: w) := by
      rintro ⟨rfl, -⟩
      exact hc (List.mem_cons_self _ _)
    have hxs : backquote ∉ xs := fun h => hc (List.mem_cons_of_mem _ h)
    simp only [List.cons_append, stripRunsAux, List.append_eq, if_neg hx,
      ih b hxs hb htb]

theorem strip_both_fences (w a c b : List Char)
    (ha : backquote ∉ a) (hc : backquote ∉ c) (hb : backquote ∉ b)
    (htb : List.take w.length b ≠ w) :
    stripRuns backquote [backquote, backquote]
        (stripRuns backquote (backquote :: backquote :: w)
          (a ++ (backquote :: backquote :: backquote :: w)
            ++ (c ++ backquote :: backquote :: backquote :: b)))
      = a ++ c ++ b := by
  have hac : backquote ∉ a ++ c := by
    rw [List.mem_append]
    rintro (h | h)
    · exact ha h
    · exact hc h
  rw [stripRuns, stripRuns,
    stripRunsAux_append backquote (backquote :: backquote :: w) _ a ha,
    stripRunsAux_skips_bare_fence w c b hc hb htb]
  have hshape : a ++ (c ++ backquote :: backquote :: backquote :: b)
      = (a ++ c) ++ (backquote :: [backquote, backquote]) ++ b := by
    simp [List.append_assoc]
  rw [hshape, stripRunsAux_append backquote [backquote, backquote] b (a ++ c) hac,
    stripRunsAux_of_not_mem backquote _ b hb]

theorem String.mk_data (t : String) : String.mk t.data = t := rfl

theorem String.data_mk (l : List Char) : (String.mk l).data = l := rfl

/-- C8: generateSystemInsight never propagates a fault: when the API key is
missing (empty) or the endpoint call raised, it returns one of the two
static fallback strings; being a total function into String, it raises
nothing in any case. -/
theorem generateSystemInsight_fallback (apiKey : String) (data : InverterData)
    (outcome : GenOutcome)
    (h : apiKey = "" ∨ ∃ e, outcome = Except.error e) :
    generateSystemInsight apiKey data outcome
        = "API Key missing. Cannot generate insights."
      ∨ generateSystemInsight apiKey data outcome
        = "Status: Operational (AI Offline)" := by
  rcases h with hk | ⟨e, he⟩
  · left
    simp [generateSystemInsight, hk]
  · subst he
    rcases eq_or_ne apiKey "" with hk | hk
    · left
      simp [generateSystemInsight, hk]
    · right
      simp [generateSystemInsight, hk]

/-- Witness for C8: with the key missing and the endpoint down, the result
is one of the static fallback strings. -/
theorem generateSystemInsight_fallback_witness :
    ("" = "" ∨ ∃ e, (Except.error (GenError.mk "boom") : GenOutcome)
        = Except.error e)
      ∧ (generateSystemInsight "" INITIAL_DATA
            (Except.error (GenError.mk "boom"))
          = "API Key missing. Cannot generate insights."
        ∨ generateSystemInsight "" INITIAL_DATA
            (Except.error (GenError.mk "boom"))
          = "Status: Operational (AI Offline)") :=
  ⟨Or.inl rfl,
   generateSystemInsight_fallback "" INITIAL_DATA
     (Except.error (GenError.mk "boom")) (Or.inl rfl)⟩

/-- C9 counterexample: a successful response whose text is " x " is
returned as "x", not verbatim: generatePythonScript (and likewise
generateGithubWorkflow) trims the response text and strips code fences
before returning it. -/
theorem generated_text_not_verbatim :
    generatePythonScript "k" MOCK_CREDENTIALS ScriptMode.relay false
        (Except.ok (some " x ")) = "x"
      ∧ generatePythonScript "k" MOCK_CREDENTIALS ScriptMode.relay false
        (Except.ok (some " x ")) ≠ " x " := by
  constructor <;> decide

/-- C9 amended: generatePythonScript and generateGithubWorkflow do not
return the response text verbatim but with the code-fence markers removed
and leading and trailing whitespace trimmed: a response that wraps
backtick-free text in a python (resp. yaml) code fence is returned as the
surrounding and enclosed text with both fence markers removed and the ends
trimmed, and a backtick-free response with no leading or trailing
whitespace is returned unchanged. -/
theorem generated_text_fence_stripped (apiKey : String)
    (creds : UserCredentials) (mode : ScriptMode) (useEnvVars : Bool)
    (a c b : List Char) (t : String)
    (hk : apiKey ≠ "")
    (ha : backquote ∉ a) (hc : backquote ∉ c) (hb : backquote ∉ b)
    (hpyb : List.take (String.data "python").length b ≠ String.data "python")
    (hyab : List.take (String.data "yaml").length b ≠ String.data "yaml")
    (hbt : backquote ∉ t.data) (htr : jsTrim t.data = t.data) :
    generatePythonScript apiKey creds mode useEnvVars
        (Except.ok (some (String.mk
          (a ++ (backquote :: backquote :: backquote :: String.data "python")
            ++ (c ++ backquote :: backquote :: backquote :: b)))))
      = String.mk (jsTrim (a ++ c ++ b))
    ∧ generateGithubWorkflow apiKey
        (Except.ok (some (String.mk
          (a ++ (backquote :: backquote :: backquote :: String.data "yaml")
            ++ (c ++ backquote :: backquote :: backquote :: b)))))
      = String.mk (jsTrim (a ++ c ++ b))
    ∧ generatePythonScript apiKey creds mode useEnvVars (Except.ok (some t)) = t
    ∧ generateGithubWorkflow apiKey (Except.ok (some t)) = t := by
  refine ⟨?_, ?_, ?_, ?_⟩
  · simp only [generatePythonScript, if_neg hk, Option.getD_some, postprocessPython,
      String.data_mk, strip_both_fences (String.data "python") a c b ha hc hb hpyb]
  · simp only [generateGithubWorkflow, if_neg hk, Option.getD_some, postprocessYaml,
      String.data_mk, strip_both_fences (String.data "yaml") a c b ha hc hb hyab]
  · simp only [generatePythonScript, if_neg hk, Option.getD_some, postprocessPython,
      stripRuns_of_not_mem backquote _ t.data hbt, htr, String.mk_data]
  · simp only [generateGithubWorkflow, if_neg hk, Option.getD_some, postprocessYaml,
      stripRuns_of_not_mem backquote _ t.data hbt, htr, String.mk_data]

/-- Witness for the amended C9: a response wrapping print(1) in a python
(resp. yaml) code fence between backtick-free surrounding text comes back
with the fences removed and the ends trimmed, and the fence-free response
print(2) comes back unchanged. -/
theorem generated_text_fence_stripped_witness :
    generatePythonScript "k" MOCK_CREDENTIALS ScriptMode.relay false
        (Except.ok (some (String.mk
          (String.data "Here: "
            ++ (backquote :: backquote :: backquote :: String.data "python")
            ++ (String.data "print(1)"
              ++ backquote :: backquote :: backquote :: String.data " done")))))
      = "Here: print(1) done"
    ∧ generateGithubWorkflow "k"
        (Except.ok (some (String.mk
          (String.data "Here: "
            ++ (backquote :: backquote :: backquote :: String.data "yaml")
            ++ (String.data "print(1)"
              ++ backquote :: backquote :: backquote :: String.data " done")))))
      = "Here: print(1) done"
    ∧ generatePythonScript "k" MOCK_CREDENTIALS ScriptMode.relay false
        (Except.ok (some "print(2)")) = "print(2)"
    ∧ generateGithubWorkflow "k" (Except.ok (some "print(2)")) = "print(2)" := by
  have h := generated_text_fence_stripped "k" MOCK_CREDENTIALS ScriptMode.relay false
    (String.data "Here: ") (String.data "print(1)") (String.data " done") "print(2)"
    (by decide) (by decide) (by decide) (by decide) (by decide) (by decide)
    (by decide) (by decide)
  exact ⟨h.1.trans (by decide), h.2.1.trans (by decide), h.2.2.1, h.2.2.2⟩

end SolarView
